import Mathlib

/-
Verification development for the whisker preprocessing pipeline
(scripts/whisker_preprocess.py).  The Python program is shallowly embedded:
the filesystem is a record of artifact-existence booleans, external tools are
oracles returning an exit code together with their filesystem effect, and the
pandas tables are modelled by their index labels and column names, which is
all the orchestration logic inspects.
-/

namespace Whisker

/-- The four external whisker analysis stages driven by extract_whisk_data. -/
inductive Stage
  | trace
  | measure
  | classify
  | reclassify
  deriving DecidableEq, Repr

/-- Existence of one channel's whisker-side artifacts on disk:
whiskname (.whiskers), measname (.measurements), whiskraw (-whisk-raw.csv),
whiskcheck (-whisk-checkpoint.csv), summaryfile (-summary.xlsx). -/
structure FS where
  whiskname : Bool
  measname : Bool
  whiskraw : Bool
  whiskcheck : Bool
  summaryfile : Bool
  deriving DecidableEq, Repr

/-- A pandas DataFrame as the orchestration code sees it: its row index
labels and its ordinary column names. -/
structure IndexedTable where
  index : List Nat
  colNames : List String
  deriving DecidableEq, Repr

/-- The filtered whisker table returned by filter_raw: it carries a frameid
column (later moved into the index) plus its remaining columns. -/
structure WhiskTable where
  frameid : List Nat
  otherCols : List String
  deriving DecidableEq, Repr

/-- side.set_index of the frameid column: the frameid values become the row
index and frameid stops being an ordinary column. -/
def setIndexFrameid (t : WhiskTable) : IndexedTable :=
  { index := t.frameid, colNames := t.otherCols }

/-- DataFrame.join with its default how of left: the result keeps exactly the
left index (in order) and concatenates the column sets; right rows are
matched by index label, missing ones filled with NaN. -/
def pdJoin (l r : IndexedTable) : IndexedTable :=
  { index := l.index, colNames := l.colNames ++ r.colNames }

/-- Eye table built on the fresh split path (lines 286 to 289): a DataFrame
with columns frameid, total area, eye area, then set_index on frameid. -/
def freshEyeTable (ids : List Nat) : IndexedTable :=
  { index := ids, colNames := ["total_area", "eye_area"] }

/-- Eye table built on the resume path (lines 295 to 296): pd.read_csv of the
checkpoint CSV, whose stored frameid values become an ordinary column while
the index is the default positional RangeIndex. -/
def resumeEyeTable (f : List Nat) : IndexedTable :=
  { index := List.range f.length, colNames := ["frameid", "total_area", "eye_area"] }

/-- The frame-reading loop of split_and_extract_blink (lines 254 to 279).
src is the stream of frames the capture will yield; cur is curframe.  Each
iteration with a successful read and cur below nframes appends one row
(cur, measurement) to each channel's eye list and writes one frame to each
channel video (counted by the third component); otherwise the loop breaks. -/
def splitGo {A M : Type} (measL measR : A → M) :
    List A → Nat → Nat → List (Nat × M) × List (Nat × M) × Nat
  | [], _, _ => ([], [], 0)
  | f :: rest, cur, nframes =>
    if cur < nframes then
      ((cur, measL f) :: (splitGo measL measR rest (cur + 1) nframes).1,
       (cur, measR f) :: (splitGo measL measR rest (cur + 1) nframes).2.1,
       (splitGo measL measR rest (cur + 1) nframes).2.2 + 1)
    else ([], [], 0)

/-- Existence of the splitter's artifacts: the two channel videos and the two
eye checkpoint CSVs. -/
structure SplitFS where
  leftVideo : Bool
  rightVideo : Bool
  leftEyecheck : Bool
  rightEyecheck : Bool
  deriving DecidableEq, Repr

/-- Which branch split_and_extract_blink takes at line 246. -/
inductive SplitAction
  | fullPass
  | loadCheckpoints
  deriving DecidableEq, Repr

/-- The branch condition of lines 246 to 247: the full pass runs unless the
left video, right video, right eye checkpoint and left eye checkpoint all
exist and KEEP_FILES is set. -/
def splitAction (keep : Bool) (sfs : SplitFS) : SplitAction :=
  if !(sfs.leftVideo && sfs.rightVideo && sfs.rightEyecheck && sfs.leftEyecheck && keep) then
    SplitAction.fullPass
  else
    SplitAction.loadCheckpoints

/-- split_and_extract_blink restricted to what downstream code observes: the
branch taken and the two in-memory eye tables attached to the channels.  On
the full pass the tables come from the frame loop with frameid set as index;
on the resume branch they are read back from the checkpoint CSVs.  ckptL and
ckptR are the frameid values stored in the two checkpoint files. -/
def split_and_extract_blink {A M : Type} (keep : Bool) (sfs : SplitFS)
    (src : List A) (nframes : Nat) (measL measR : A → M)
    (ckptL ckptR : List Nat) : SplitAction × IndexedTable × IndexedTable :=
  match splitAction keep sfs with
  | SplitAction.fullPass =>
      (SplitAction.fullPass,
       freshEyeTable ((splitGo measL measR src 0 nframes).1.map Prod.fst),
       freshEyeTable ((splitGo measL measR src 0 nframes).2.1.map Prod.fst))
  | SplitAction.loadCheckpoints =>
      (SplitAction.loadCheckpoints, resumeEyeTable ckptL, resumeEyeTable ckptR)

/-- A file path split as splitext does, kept as the pair (stem, extension). -/
structure VPath where
  base : String
  ext : String
  deriving DecidableEq, Repr

/-- Render a path back to its string form. -/
def VPath.render (p : VPath) : String := p.base ++ p.ext

/-- The aligned-output name computed at lines 321 to 322. -/
def alignedPath (video : VPath) : VPath :=
  { base := video.base ++ "-aligned", ext := video.ext }

/-- Environment of the aligner: the ffmpeg path, the original source
recording path args.input, and the external process as an exit-code oracle
over the full command line. -/
structure AlignEnv where
  ffmpegPath : String
  argsInput : String
  run : List String → Nat

/-- The exact command assembled at lines 325 to 326.  Note the input given to
the re-encoder is args.input, the original source recording. -/
def alignCommand (env : AlignEnv) (aligned : String) : List String :=
  [env.ffmpegPath, "-i", env.argsInput, "-codec:v", "mpeg4", "-r", "240",
   "-qscale:v", "2", "-codec:a", "copy", aligned]

/-- Embedding of align_timestamps (lines 313 to 332): returns the result
path (none models the None returned on a nonzero exit) together with the
command actually invoked, or none when the invocation was skipped. -/
def alignTimestamps (keep : Bool) (alignedExists : Bool) (video : VPath)
    (env : AlignEnv) : Option String × Option (List String) :=
  if !(alignedExists && keep) then
    (if env.run (alignCommand env (alignedPath video).render) = 0 then
       some (alignedPath video).render
     else none,
     some (alignCommand env (alignedPath video).render))
  else
    (some (alignedPath video).render, none)

/-- Oracles for the external collaborators: runStage invokes one of the four
whisker tools and yields its exit code together with its filesystem effect;
runExtract is the python extraction call of line 123; readRaw is pd.read_csv
on the raw checkpoint (none models the read raising); filterRaw is the
filter_raw collaborator (none models it raising). -/
structure World where
  runStage : Stage → FS → Nat × FS
  runExtract : FS → Nat × FS
  readRaw : FS → Option WhiskTable
  filterRaw : WhiskTable → Option WhiskTable

/-- The artifact each stage's skip check consults (lines 149, 157, 166, 176):
trace checks the whiskers file; measure, classify and reclassify check the
measurements file.  Classify and reclassify rewrite the measurements file in
place, so the measurements file is also their own expected output. -/
def stageArtifact (s : Stage) (fs : FS) : Bool :=
  match s with
  | Stage.trace => fs.whiskname
  | Stage.measure => fs.measname
  | Stage.classify => fs.measname
  | Stage.reclassify => fs.measname

/-- The stage-tagged fatal messages of lines 193 to 199. -/
def stageErrMsg : Stage → String
  | Stage.trace => "trace failed on "
  | Stage.measure => "measurement failed on "
  | Stage.classify => "classifier failed on "
  | Stage.reclassify => "reclassifier failed on "

/-- One stage step: if the skip check (KEEP_FILES and the artifact exists)
fails, invoke the tool; otherwise synthesize a successful CompletedProcess.
Returns exit code, filesystem afterwards, and whether the tool was invoked. -/
def runOneStage (keep : Bool) (w : World) (s : Stage) (fs : FS) :
    Nat × FS × Bool :=
  if !(keep && stageArtifact s fs) then
    ((w.runStage s fs).1, (w.runStage s fs).2, true)
  else
    (0, fs, false)

/-- The nested stage cascade of lines 149 to 199, as a fold over the stage
list: each step runs (or skips) a stage, continues on exit code zero and
stops with that stage's fatal message otherwise.  inv accumulates the tools
actually invoked, in order. -/
def runStages (keep : Bool) (w : World) (label : String) :
    List Stage → FS → List Stage → Except String Unit × FS × List Stage
  | [], fs, inv => (Except.ok (), fs, inv)
  | s :: rest, fs, inv =>
    if (runOneStage keep w s fs).1 = 0 then
      runStages keep w label rest (runOneStage keep w s fs).2.1
        (if (runOneStage keep w s fs).2.2 then inv ++ [s] else inv)
    else
      (Except.error (stageErrMsg s ++ label), (runOneStage keep w s fs).2.1,
       if (runOneStage keep w s fs).2.2 then inv ++ [s] else inv)

/-- The stage order of extract_whisk_data. -/
def stageList : List Stage :=
  [Stage.trace, Stage.measure, Stage.classify, Stage.reclassify]

/-- Observable outcome of estimate_whisking_from_raw_whiskers: whether the
python extraction tool was invoked, the exception or success, the filesystem
afterwards, whether the filtered checkpoint and the summary table were
written, and the index of the written summary table. -/
structure EstimateResult where
  extractInvoked : Bool
  outcome : Except String Unit
  fs : FS
  whiskcheckWritten : Bool
  summaryWritten : Bool
  summaryIndex : Option (List Nat)
  deriving Repr

/-- The tail of estimate_whisking_from_raw_whiskers (lines 132 to 136): apply
filter_raw, write the filtered checkpoint, set frameid as the index, join
with the channel's eye table, write the summary.  A raise in filter_raw
propagates and nothing is written. -/
def estimateJoin (w : World) (eye : IndexedTable) (data : WhiskTable)
    (fs : FS) (inv : Bool) : EstimateResult :=
  match w.filterRaw data with
  | none =>
      { extractInvoked := inv
        outcome := Except.error "filter_raw raised"
        fs := fs
        whiskcheckWritten := false
        summaryWritten := false
        summaryIndex := none }
  | some side =>
      { extractInvoked := inv
        outcome := Except.ok ()
        fs := { fs with whiskcheck := true, summaryfile := true }
        whiskcheckWritten := true
        summaryWritten := true
        summaryIndex := some (pdJoin (setIndexFrameid side) eye).index }

/-- Embedding of estimate_whisking_from_raw_whiskers (lines 118 to 136):
unless the raw checkpoint exists and KEEP_FILES is set, invoke the
extraction tool and raise on a nonzero exit; read the raw checkpoint; then
filter, checkpoint, join and write the summary. -/
def estimate (keep : Bool) (w : World) (eye : IndexedTable) (label : String)
    (fs : FS) : EstimateResult :=
  if !(fs.whiskraw && keep) then
    if (w.runExtract fs).1 = 0 then
      match w.readRaw (w.runExtract fs).2 with
      | some data => estimateJoin w eye data (w.runExtract fs).2 true
      | none =>
          { extractInvoked := true
            outcome := Except.error "could not read raw whisker checkpoint"
            fs := (w.runExtract fs).2
            whiskcheckWritten := false
            summaryWritten := false
            summaryIndex := none }
    else
      { extractInvoked := true
        outcome := Except.error ("failed to extract from " ++ label)
        fs := (w.runExtract fs).2
        whiskcheckWritten := false
        summaryWritten := false
        summaryIndex := none }
  else
    match w.readRaw fs with
    | some data => estimateJoin w eye data fs false
    | none =>
        { extractInvoked := false
          outcome := Except.error "could not read raw whisker checkpoint"
          fs := fs
          whiskcheckWritten := false
          summaryWritten := false
          summaryIndex := none }

/-- Observable outcome of extract_whisk_data for one channel: the external
whisker tools invoked in order, the exception or success, the filesystem at
the end, whether the joiner ran, and what it wrote. -/
structure ExtractResult where
  invoked : List Stage
  outcome : Except String Unit
  fs : FS
  estimateRan : Bool
  whiskcheckWritten : Bool
  summaryWritten : Bool
  summaryIndex : Option (List Nat)
  deriving Repr

/-- Embedding of extract_whisk_data (lines 139 to 199): run the four-stage
cascade; on success check that the whiskers and measurements files were
actually saved (lines 187 to 188), then, unless the summary already exists
and KEEP_FILES is set, hand off to the joiner (lines 189 to 190).  label is
video.labelname and vname is video.name. -/
def extract_whisk_data (keep : Bool) (w : World) (eye : IndexedTable)
    (label : String) (vname : String) (fs : FS) : ExtractResult :=
  match runStages keep w label stageList fs [] with
  | (Except.error e, fs4, inv) =>
      { invoked := inv
        outcome := Except.error e
        fs := fs4
        estimateRan := false
        whiskcheckWritten := false
        summaryWritten := false
        summaryIndex := none }
  | (Except.ok _, fs4, inv) =>
      if !fs4.whiskname || !fs4.measname then
        { invoked := inv
          outcome :=
            Except.error ("whisker or measurement file was not saved for " ++ vname)
          fs := fs4
          estimateRan := false
          whiskcheckWritten := false
          summaryWritten := false
          summaryIndex := none }
      else if !(fs4.summaryfile && keep) then
        { invoked := inv
          outcome := (estimate keep w eye label fs4).outcome
          fs := (estimate keep w eye label fs4).fs
          estimateRan := true
          whiskcheckWritten := (estimate keep w eye label fs4).whiskcheckWritten
          summaryWritten := (estimate keep w eye label fs4).summaryWritten
          summaryIndex := (estimate keep w eye label fs4).summaryIndex }
      else
        { invoked := inv
          outcome := Except.ok ()
          fs := fs4
          estimateRan := false
          whiskcheckWritten := false
          summaryWritten := false
          summaryIndex := none }

/-- A one-row raw whisker table used in concrete runs. -/
def dataOneRow : WhiskTable := { frameid := [0], otherCols := ["amplitude"] }

/-- A two-row raw whisker table used in concrete runs. -/
def dataTwoRows : WhiskTable := { frameid := [0, 1], otherCols := ["amplitude"] }

/-- Concrete world in which every whisker tool exits 1 while the joiner-side
collaborators succeed: any stage actually invoked would abort the run. -/
def worldStagesFail : World :=
  { runStage := fun _ f => (1, f)
    runExtract := fun f => (0, f)
    readRaw := fun _ => some dataOneRow
    filterRaw := fun t => some t }

/-- Concrete world in which every collaborator succeeds and the tools write
their artifacts (trace and the measurement stages create their files, the
extraction call creates the raw checkpoint). -/
def worldStagesOkWrite : World :=
  { runStage := fun _ f => (0, { f with whiskname := true, measname := true })
    runExtract := fun f => (0, { f with whiskraw := true })
    readRaw := fun _ => some dataOneRow
    filterRaw := fun t => some t }

/-- Concrete world in which every tool exits 0 but writes nothing: a stage
can report success while its expected artifact is absent. -/
def worldStagesOkNoWrite : World :=
  { runStage := fun _ f => (0, f)
    runExtract := fun f => (0, f)
    readRaw := fun _ => some dataOneRow
    filterRaw := fun t => some t }

/-- Concrete world in which the python extraction call fails (exit 1) and
the joiner-side reads and filter fail too. -/
def worldExtractFail : World :=
  { runStage := fun _ f => (0, f)
    runExtract := fun f => (1, f)
    readRaw := fun _ => none
    filterRaw := fun _ => none }

/-- Concrete world whose raw whisker checkpoint holds frame ids 0 and 1 and
whose filter is the identity. -/
def worldTwoRows : World :=
  { runStage := fun _ f => (0, f)
    runExtract := fun f => (0, f)
    readRaw := fun _ => some dataTwoRows
    filterRaw := fun t => some t }

/-- Filesystem of a typical resume run: the whiskers file, the measurements
file and the raw checkpoint exist; the filtered checkpoint and the summary
do not. -/
def resumeFS : FS :=
  { whiskname := true, measname := true, whiskraw := true,
    whiskcheck := false, summaryfile := false }

/-- Filesystem of a first run: nothing exists yet. -/
def emptyFS : FS :=
  { whiskname := false, measname := false, whiskraw := false,
    whiskcheck := false, summaryfile := false }

/-- The branch taken by split_and_extract_blink is exactly splitAction. -/
theorem split_and_extract_fst {A M : Type} (keep : Bool) (sfs : SplitFS)
    (src : List A) (nframes : Nat) (measL measR : A → M)
    (ckptL ckptR : List Nat) :
    (split_and_extract_blink keep sfs src nframes measL measR ckptL ckptR).1 =
      splitAction keep sfs := by
  cases h : splitAction keep sfs <;>
    simp [split_and_extract_blink, h]

/-- Frame ids produced by the split loop: starting at cur with enough frames
left, each channel receives rows labelled cur, cur+1, ... up to nframes-1,
and one video frame is emitted per row. -/
theorem splitGo_spec {A M : Type} (measL measR : A → M) (src : List A) :
    ∀ cur n : Nat, cur ≤ n → n - cur ≤ src.length →
      (splitGo measL measR src cur n).1.map Prod.fst = List.range' cur (n - cur) ∧
      (splitGo measL measR src cur n).2.1.map Prod.fst = List.range' cur (n - cur) ∧
      (splitGo measL measR src cur n).1.length = n - cur ∧
      (splitGo measL measR src cur n).2.1.length = n - cur ∧
      (splitGo measL measR src cur n).2.2 = n - cur := by
  induction src with
  | nil =>
      intro cur n hcn hlen
      have h0 : n - cur = 0 := Nat.le_zero.mp hlen
      simp [splitGo, h0]
  | cons f rest ih =>
      intro cur n hcn hlen
      rcases Nat.lt_or_ge cur n with hlt | hge
      · have hrec := ih (cur + 1) n hlt (by simp at hlen; omega)
        obtain ⟨e1, e2, e3, e4, e5⟩ := hrec
        have hsub : n - cur = (n - (cur + 1)) + 1 := by omega
        rw [hsub, List.range'_succ]
        simp [splitGo, hlt, e1, e2, e3, e4, e5]
      · have h0 : n - cur = 0 := by omega
        have hnlt : ¬ cur < n := by omega
        simp [splitGo, hnlt, h0]

/-- Running the cascade over an appended list first runs the front part; on
its success the rest continues from where it stopped. -/
theorem runStages_append_ok (keep : Bool) (w : World) (label : String) :
    ∀ (l1 l2 : List Stage) (fs fs1 : FS) (inv inv1 : List Stage),
      runStages keep w label l1 fs inv = (Except.ok (), fs1, inv1) →
      runStages keep w label (l1 ++ l2) fs inv =
        runStages keep w label l2 fs1 inv1 := by
  intro l1
  induction l1 with
  | nil =>
      intro l2 fs fs1 inv inv1 h
      simp [runStages] at h
      simp [h.1, h.2]
  | cons s rest ih =>
      intro l2 fs fs1 inv inv1 h
      by_cases hrc : (runOneStage keep w s fs).1 = 0
      · simp only [runStages, if_pos hrc] at h
        simpa [runStages, if_pos hrc] using ih l2 _ _ _ _ h
      · simp [runStages, if_neg hrc] at h

/-- A stage that is reached and exits nonzero stops the cascade with that
stage's fatal message. -/
theorem runStages_error_step (keep : Bool) (w : World) (label : String)
    (s : Stage) (rest : List Stage) (fs : FS) (inv : List Stage)
    (hrc : (runOneStage keep w s fs).1 ≠ 0) :
    runStages keep w label (s :: rest) fs inv =
      (Except.error (stageErrMsg s ++ label), (runOneStage keep w s fs).2.1,
       if (runOneStage keep w s fs).2.2 then inv ++ [s] else inv) := by
  simp [runStages, if_neg hrc]

/-- The invoked list grows only by stages taken from the list being run. -/
theorem runStages_invoked_sub (keep : Bool) (w : World) (label : String) :
    ∀ (L : List Stage) (fs : FS) (inv : List Stage),
      ∃ extra, (runStages keep w label L fs inv).2.2 = inv ++ extra ∧
        ∀ t ∈ extra, t ∈ L := by
  intro L
  induction L with
  | nil =>
      intro fs inv
      exact ⟨[], by simp [runStages], by simp⟩
  | cons s rest ih =>
      intro fs inv
      by_cases hrc : (runOneStage keep w s fs).1 = 0
      · by_cases hdid : (runOneStage keep w s fs).2.2 = true
        · obtain ⟨extra, he, hsub⟩ := ih (runOneStage keep w s fs).2.1 (inv ++ [s])
          refine ⟨s :: extra, ?_, ?_⟩
          · simp [runStages, if_pos hrc, hdid, he]
          · intro t ht
            rcases List.mem_cons.mp ht with h | h
            · simp [h]
            · exact List.mem_cons_of_mem s (hsub t h)
        · obtain ⟨extra, he, hsub⟩ := ih (runOneStage keep w s fs).2.1 inv
          refine ⟨extra, ?_, ?_⟩
          · simp [runStages, if_pos hrc, hdid, he]
          · intro t ht
            exact List.mem_cons_of_mem s (hsub t ht)
      · by_cases hdid : (runOneStage keep w s fs).2.2 = true
        · exact ⟨[s], by simp [runStages, if_neg hrc, hdid], by simp⟩
        · exact ⟨[], by simp [runStages, if_neg hrc, hdid], by simp⟩

/-- With KEEP_FILES disabled every stage is invoked; when all tools exit
zero the cascade succeeds having invoked the whole list in order. -/
theorem runStages_clean_all (w : World) (label : String)
    (hrc : ∀ s f, (w.runStage s f).1 = 0) :
    ∀ (L : List Stage) (fs : FS) (inv : List Stage),
      (runStages false w label L fs inv).1 = Except.ok () ∧
      (runStages false w label L fs inv).2.2 = inv ++ L := by
  intro L
  induction L with
  | nil =>
      intro fs inv
      simp [runStages]
  | cons s rest ih =>
      intro fs inv
      have h1 : runOneStage false w s fs =
          ((w.runStage s fs).1, (w.runStage s fs).2, true) := by
        simp [runOneStage]
      have h2 := ih (w.runStage s fs).2 (inv ++ [s])
      simp [runStages, h1, hrc s fs, h2.1, h2.2]

/-- In clean mode the joiner always invokes the python extraction call. -/
theorem estimate_clean_extracts (w : World) (eye : IndexedTable)
    (label : String) (fs : FS) :
    (estimate false w eye label fs).extractInvoked = true := by
  by_cases hrc : (w.runExtract fs).1 = 0
  · cases hr : w.readRaw (w.runExtract fs).2 with
    | none => simp [estimate, hrc, hr]
    | some data =>
        cases hf : w.filterRaw data with
        | none => simp [estimate, estimateJoin, hrc, hr, hf]
        | some side => simp [estimate, estimateJoin, hrc, hr, hf]
  · simp [estimate, hrc]

/-- C5: for a source recording with N frames that the splitter fully
processes (the capture yields at least N frames), the splitting pass gives
both channels eye-metric tables with exactly N rows whose frame ids are
0..N-1 (the contiguous, strictly increasing List.range N), identical between
the two channels, and one row per emitted video frame on each side. -/
theorem split_fullpass_lockstep {A M : Type} (keep : Bool) (sfs : SplitFS)
    (src : List A) (n : Nat) (measL measR : A → M) (ckptL ckptR : List Nat)
    (hn : n ≤ src.length)
    (hact : splitAction keep sfs = SplitAction.fullPass) :
    (split_and_extract_blink keep sfs src n measL measR ckptL ckptR).2.1.index =
      List.range n ∧
    (split_and_extract_blink keep sfs src n measL measR ckptL ckptR).2.2.index =
      List.range n ∧
    (split_and_extract_blink keep sfs src n measL measR ckptL ckptR).2.1.index =
      (split_and_extract_blink keep sfs src n measL measR ckptL ckptR).2.2.index ∧
    (splitGo measL measR src 0 n).1.length = n ∧
    (splitGo measL measR src 0 n).2.1.length = n ∧
    (splitGo measL measR src 0 n).2.2 = n := by
  obtain ⟨e1, e2, e3, e4, e5⟩ :=
    splitGo_spec measL measR src 0 n (Nat.zero_le n) (by simpa using hn)
  rw [Nat.sub_zero] at e1 e2 e3 e4 e5
  rw [← List.range_eq_range'] at e1 e2
  simp [split_and_extract_blink, hact, freshEyeTable, e1, e2, e3, e4, e5]

/-- C5 witness: a three-frame capture split to two frames per channel. -/
theorem split_fullpass_lockstep_witness :
    (split_and_extract_blink false ⟨false, false, false, false⟩ [10, 20, 30] 2
        (fun x : Nat => x) (fun x : Nat => x + 1) [] []).2.1.index =
      List.range 2 ∧
    (split_and_extract_blink false ⟨false, false, false, false⟩ [10, 20, 30] 2
        (fun x : Nat => x) (fun x : Nat => x + 1) [] []).2.2.index =
      List.range 2 ∧
    (split_and_extract_blink false ⟨false, false, false, false⟩ [10, 20, 30] 2
        (fun x : Nat => x) (fun x : Nat => x + 1) [] []).2.1.index =
      (split_and_extract_blink false ⟨false, false, false, false⟩ [10, 20, 30] 2
        (fun x : Nat => x) (fun x : Nat => x + 1) [] []).2.2.index ∧
    (splitGo (fun x : Nat => x) (fun x : Nat => x + 1) [10, 20, 30] 0 2).1.length = 2 ∧
    (splitGo (fun x : Nat => x) (fun x : Nat => x + 1) [10, 20, 30] 0 2).2.1.length = 2 ∧
    (splitGo (fun x : Nat => x) (fun x : Nat => x + 1) [10, 20, 30] 0 2).2.2 = 2 :=
  split_fullpass_lockstep false ⟨false, false, false, false⟩ [10, 20, 30] 2
    (fun x : Nat => x) (fun x : Nat => x + 1) [] [] (by decide) (by decide)

/-- C7: the splitter skips the whole pass and loads the eye checkpoints
exactly when resume mode is active and the two channel videos and the two
eye checkpoints all exist; in that case the in-memory tables come from the
checkpoint files. -/
theorem split_resume_iff {A M : Type} (keep : Bool) (sfs : SplitFS)
    (src : List A) (n : Nat) (measL measR : A → M) (ckptL ckptR : List Nat) :
    ((split_and_extract_blink keep sfs src n measL measR ckptL ckptR).1 =
        SplitAction.loadCheckpoints ↔
      keep = true ∧ sfs.leftVideo = true ∧ sfs.rightVideo = true ∧
        sfs.leftEyecheck = true ∧ sfs.rightEyecheck = true) ∧
    ((split_and_extract_blink keep sfs src n measL measR ckptL ckptR).1 =
        SplitAction.loadCheckpoints →
      (split_and_extract_blink keep sfs src n measL measR ckptL ckptR).2.1 =
          resumeEyeTable ckptL ∧
        (split_and_extract_blink keep sfs src n measL measR ckptL ckptR).2.2 =
          resumeEyeTable ckptR) := by
  constructor
  · rw [split_and_extract_fst]
    obtain ⟨a, b, c, d⟩ := sfs
    cases keep <;> cases a <;> cases b <;> cases c <;> cases d <;>
      simp [splitAction]
  · intro h
    rw [split_and_extract_fst] at h
    simp [split_and_extract_blink, h]

/-- C7 witness: with resume active and all four files present, the splitter
returns the tables loaded from the checkpoints. -/
theorem split_resume_iff_witness :
    (split_and_extract_blink true ⟨true, true, true, true⟩ ([] : List Nat) 0
        (fun x : Nat => x) (fun x : Nat => x) [0] [0, 1]).2.1 =
      resumeEyeTable [0] ∧
    (split_and_extract_blink true ⟨true, true, true, true⟩ ([] : List Nat) 0
        (fun x : Nat => x) (fun x : Nat => x) [0] [0, 1]).2.2 =
      resumeEyeTable [0, 1] :=
  (split_resume_iff true ⟨true, true, true, true⟩ ([] : List Nat) 0
      (fun x : Nat => x) (fun x : Nat => x) [0] [0, 1]).2 (by decide)

/-- C10: the eye table attached after a fresh split has the frame ids as its
index and no frameid column, while the one loaded on the resume path keeps
frameid as an ordinary column under a positional index; the two shapes are
never equal, and the downstream join result differs between the two paths. -/
theorem eye_table_fresh_vs_resume (ids f : List Nat) (side : WhiskTable) :
    (freshEyeTable ids).index = ids ∧
    "frameid" ∉ (freshEyeTable ids).colNames ∧
    (resumeEyeTable f).index = List.range f.length ∧
    "frameid" ∈ (resumeEyeTable f).colNames ∧
    freshEyeTable ids ≠ resumeEyeTable f ∧
    pdJoin (setIndexFrameid side) (freshEyeTable ids) ≠
      pdJoin (setIndexFrameid side) (resumeEyeTable f) := by
  refine ⟨rfl, ?_, rfl, ?_, ?_, ?_⟩
  · simp [freshEyeTable]
  · simp [resumeEyeTable]
  · intro h
    have hc := congrArg IndexedTable.colNames h
    simp only [freshEyeTable, resumeEyeTable] at hc
    exact absurd hc (by decide)
  · intro h
    have hc := congrArg (fun t => t.colNames.length) h
    simp [pdJoin, setIndexFrameid, freshEyeTable, resumeEyeTable] at hc

/-- C3 (code bug): at the concrete channel video session-left.avi of the
recording session.avi, the aligner invokes the re-encoder with args.input
(the original recording session.avi) as the ffmpeg input; the channel video
path appears nowhere in the command, although the aligned output name is
derived from the channel video. -/
theorem align_reencodes_args_input :
    (alignTimestamps false false ⟨"session-left", ".avi"⟩
        { ffmpegPath := "ffmpeg", argsInput := "session.avi",
          run := fun _ => 0 }).2 =
      some ["ffmpeg", "-i", "session.avi", "-codec:v", "mpeg4", "-r", "240",
        "-qscale:v", "2", "-codec:a", "copy", "session-left-aligned.avi"] ∧
    "session-left.avi" ∉
      ["ffmpeg", "-i", "session.avi", "-codec:v", "mpeg4", "-r", "240",
        "-qscale:v", "2", "-codec:a", "copy", "session-left-aligned.avi"] := by
  refine ⟨rfl, by decide⟩

/-- C1 (code bug): on a resume run where the whiskers file and the
measurements file already exist, extract_whisk_data skips trace and measure
but also skips classify and reclassify, because the classify and reclassify
skip checks test the measurements file (their in-place output, which measure
also produces).  No tool is invoked at all — the run succeeds even in a
world where every tool would exit 1 — so the classify tool is not invoked,
contrary to the claim. -/
theorem resume_skips_classify :
    (extract_whisk_data true worldStagesFail (freshEyeTable [0]) "left"
        "session-left.avi" resumeFS).invoked = [] ∧
    Stage.classify ∉ (extract_whisk_data true worldStagesFail
        (freshEyeTable [0]) "left" "session-left.avi" resumeFS).invoked ∧
    (extract_whisk_data true worldStagesFail (freshEyeTable [0]) "left"
        "session-left.avi" resumeFS).outcome = Except.ok () ∧
    (extract_whisk_data true worldStagesFail (freshEyeTable [0]) "left"
        "session-left.avi" resumeFS).estimateRan = true := by
  refine ⟨rfl, by decide, rfl, rfl⟩

/-- C4: whenever one of the four stages is reached after the earlier stages
succeeded, is actually invoked, and exits nonzero, extract_whisk_data ends
with that stage's fatal message (naming the stage and the channel label),
invokes none of the later stages, never runs the joiner, writes neither the
filtered checkpoint nor the summary, and leaves the filesystem exactly as
the failing stage left it. -/
theorem stage_failure_is_terminal (keep : Bool) (w : World)
    (eye : IndexedTable) (label vname : String) (fs : FS)
    (pre : List Stage) (s : Stage) (post : List Stage)
    (fsMid : FS) (invMid : List Stage)
    (hsplit : stageList = pre ++ s :: post)
    (hpre : runStages keep w label pre fs [] = (Except.ok (), fsMid, invMid))
    (hinv : (runOneStage keep w s fsMid).2.2 = true)
    (hrc : (runOneStage keep w s fsMid).1 ≠ 0) :
    (extract_whisk_data keep w eye label vname fs).outcome =
      Except.error (stageErrMsg s ++ label) ∧
    (extract_whisk_data keep w eye label vname fs).invoked = invMid ++ [s] ∧
    (∀ t ∈ post, t ∉ (extract_whisk_data keep w eye label vname fs).invoked) ∧
    (extract_whisk_data keep w eye label vname fs).estimateRan = false ∧
    (extract_whisk_data keep w eye label vname fs).summaryWritten = false ∧
    (extract_whisk_data keep w eye label vname fs).whiskcheckWritten = false ∧
    (extract_whisk_data keep w eye label vname fs).fs =
      (runOneStage keep w s fsMid).2.1 := by
  have hall : runStages keep w label stageList fs [] =
      (Except.error (stageErrMsg s ++ label), (runOneStage keep w s fsMid).2.1,
        invMid ++ [s]) := by
    rw [hsplit,
      runStages_append_ok keep w label pre (s :: post) fs fsMid [] invMid hpre,
      runStages_error_step keep w label s post fsMid invMid hrc, hinv]
    simp
  obtain ⟨extra, he, hsub⟩ := runStages_invoked_sub keep w label pre fs []
  rw [hpre] at he
  simp at he
  have hnodup : (pre ++ s :: post).Nodup := by
    rw [← hsplit]; decide
  have hdisj : pre.Disjoint (s :: post) := (List.nodup_append.mp hnodup).2.2
  have hsnot : s ∉ post :=
    (List.nodup_cons.mp (List.nodup_append.mp hnodup).2.1).1
  refine ⟨?_, ?_, ?_, ?_, ?_, ?_, ?_⟩
  · simp [extract_whisk_data, hall]
  · simp [extract_whisk_data, hall]
  · intro t ht hmem
    simp only [extract_whisk_data, hall] at hmem
    rcases List.mem_append.mp hmem with h1 | h1
    · exact hdisj (hsub t (he ▸ h1)) (List.mem_cons_of_mem s ht)
    · exact hsnot (List.mem_singleton.mp h1 ▸ ht)
  · simp [extract_whisk_data, hall]
  · simp [extract_whisk_data, hall]
  · simp [extract_whisk_data, hall]
  · simp [extract_whisk_data, hall]

/-- C4 witness: a clean run whose trace tool exits 1 ends with the trace
fatal message. -/
theorem stage_failure_is_terminal_witness :
    (extract_whisk_data false worldStagesFail (freshEyeTable [0]) "left"
        "session-left.avi" emptyFS).outcome =
      Except.error (stageErrMsg Stage.trace ++ "left") :=
  (stage_failure_is_terminal false worldStagesFail (freshEyeTable [0]) "left"
      "session-left.avi" emptyFS [] Stage.trace
      [Stage.measure, Stage.classify, Stage.reclassify] emptyFS []
      rfl rfl rfl (by decide)).1

/-- C6: with clean mode selected (resume disabled) every stage is
re-invoked regardless of the artifacts on disk: the splitter takes the full
pass for any filesystem, the aligner invokes the re-encoder whether or not
the aligned file exists, all four whisker tools are invoked (here under the
assumption that each exits zero, so the cascade reaches them all), the
joiner runs, its extraction call is invoked, and the filtered checkpoint and
summary are rewritten. -/
theorem clean_mode_reinvokes_all (w : World) (eye : IndexedTable)
    (label vname : String) (fs : FS) (sfs : SplitFS) (videoP : VPath)
    (env : AlignEnv) (b : Bool) (d : WhiskTable) (sideT : WhiskTable)
    (hrc : ∀ s f, (w.runStage s f).1 = 0)
    (hw : (runStages false w label stageList fs []).2.1.whiskname = true)
    (hm : (runStages false w label stageList fs []).2.1.measname = true)
    (hx : ∀ f, (w.runExtract f).1 = 0)
    (hread : ∀ f, w.readRaw f = some d)
    (hfilt : w.filterRaw d = some sideT) :
    (extract_whisk_data false w eye label vname fs).invoked = stageList ∧
    (extract_whisk_data false w eye label vname fs).estimateRan = true ∧
    (extract_whisk_data false w eye label vname fs).summaryWritten = true ∧
    (extract_whisk_data false w eye label vname fs).whiskcheckWritten = true ∧
    (estimate false w eye label fs).extractInvoked = true ∧
    splitAction false sfs = SplitAction.fullPass ∧
    (alignTimestamps false b videoP env).2 =
      some (alignCommand env (alignedPath videoP).render) := by
  rcases hE : runStages false w label stageList fs [] with ⟨out, fs4, inv⟩
  have hca := runStages_clean_all w label hrc stageList fs []
  rw [hE] at hca hw hm
  simp only at hca hw hm
  obtain ⟨hout, hinv⟩ := hca
  subst hout
  subst hinv
  have hest : (estimate false w eye label fs4).summaryWritten = true ∧
      (estimate false w eye label fs4).whiskcheckWritten = true := by
    simp [estimate, hx fs4, hread (w.runExtract fs4).2, estimateJoin, hfilt]
  refine ⟨?_, ?_, ?_, ?_, ?_, ?_, ?_⟩
  · simp [extract_whisk_data, hE, hw, hm]
  · simp [extract_whisk_data, hE, hw, hm]
  · simp [extract_whisk_data, hE, hw, hm, hest.1]
  · simp [extract_whisk_data, hE, hw, hm, hest.2]
  · exact estimate_clean_extracts w eye label fs
  · simp [splitAction]
  · simp [alignTimestamps]

/-- C6 witness: with every artifact already on disk and clean mode selected,
all four tools are invoked and the joiner reruns and rewrites its outputs. -/
theorem clean_mode_reinvokes_all_witness :
    (extract_whisk_data false worldStagesOkWrite (freshEyeTable [0]) "left"
        "session-left.avi" ⟨true, true, true, true, true⟩).invoked = stageList ∧
    (extract_whisk_data false worldStagesOkWrite (freshEyeTable [0]) "left"
        "session-left.avi" ⟨true, true, true, true, true⟩).estimateRan = true ∧
    (extract_whisk_data false worldStagesOkWrite (freshEyeTable [0]) "left"
        "session-left.avi" ⟨true, true, true, true, true⟩).summaryWritten = true ∧
    (extract_whisk_data false worldStagesOkWrite (freshEyeTable [0]) "left"
        "session-left.avi" ⟨true, true, true, true, true⟩).whiskcheckWritten = true ∧
    (estimate false worldStagesOkWrite (freshEyeTable [0]) "left"
        ⟨true, true, true, true, true⟩).extractInvoked = true ∧
    splitAction false ⟨true, true, true, true⟩ = SplitAction.fullPass ∧
    (alignTimestamps false true ⟨"session-left", ".avi"⟩
        { ffmpegPath := "ffmpeg", argsInput := "session.avi",
          run := fun _ => 0 }).2 =
      some (alignCommand
        { ffmpegPath := "ffmpeg", argsInput := "session.avi",
          run := fun _ => 0 }
        (alignedPath ⟨"session-left", ".avi"⟩).render) :=
  clean_mode_reinvokes_all worldStagesOkWrite (freshEyeTable [0]) "left"
    "session-left.avi" ⟨true, true, true, true, true⟩ ⟨true, true, true, true⟩
    ⟨"session-left", ".avi"⟩
    { ffmpegPath := "ffmpeg", argsInput := "session.avi", run := fun _ => 0 }
    true dataOneRow dataOneRow (fun _ _ => rfl) (by decide) (by decide)
    (fun _ => rfl) (fun _ => rfl) rfl

/-- C8: when the stage cascade (ending with reclassify) reports success, the
pipeline advances to the joiner only if the whiskers file and the
measurements file are present on disk; if either is absent it raises the
artifact-missing error naming the channel's video and the joiner is not
triggered and no summary is written. -/
theorem join_gated_on_artifacts (keep : Bool) (w : World) (eye : IndexedTable)
    (label vname : String) (fs : FS)
    (hok : (runStages keep w label stageList fs []).1 = Except.ok ()) :
    (((runStages keep w label stageList fs []).2.1.whiskname = false ∨
        (runStages keep w label stageList fs []).2.1.measname = false) →
      (extract_whisk_data keep w eye label vname fs).outcome =
          Except.error ("whisker or measurement file was not saved for " ++ vname) ∧
        (extract_whisk_data keep w eye label vname fs).estimateRan = false ∧
        (extract_whisk_data keep w eye label vname fs).summaryWritten = false) ∧
    ((extract_whisk_data keep w eye label vname fs).estimateRan = true →
      (runStages keep w label stageList fs []).2.1.whiskname = true ∧
        (runStages keep w label stageList fs []).2.1.measname = true) := by
  rcases hE : runStages keep w label stageList fs [] with ⟨out, fs4, inv⟩
  rw [hE] at hok
  simp only at hok
  subst hok
  simp only [hE]
  constructor
  · intro hmiss
    have hcond : (!fs4.whiskname || !fs4.measname) = true := by
      rcases hmiss with h | h <;> simp_all
    simp [extract_whisk_data, hE, hcond]
  · intro hran
    cases hw : fs4.whiskname with
    | false =>
        rw [extract_whisk_data] at hran
        simp [hE, hw] at hran
    | true =>
        cases hm : fs4.measname with
        | false =>
            rw [extract_whisk_data] at hran
            simp [hE, hw, hm] at hran
        | true => exact ⟨rfl, rfl⟩

/-- C8 witness: a clean run whose tools all exit zero but write nothing ends
with the artifact-missing error and the joiner does not run. -/
theorem join_gated_on_artifacts_witness :
    (extract_whisk_data false worldStagesOkNoWrite (freshEyeTable [0]) "left"
        "session-left.avi" emptyFS).outcome =
      Except.error
        ("whisker or measurement file was not saved for " ++ "session-left.avi") ∧
    (extract_whisk_data false worldStagesOkNoWrite (freshEyeTable [0]) "left"
        "session-left.avi" emptyFS).estimateRan = false ∧
    (extract_whisk_data false worldStagesOkNoWrite (freshEyeTable [0]) "left"
        "session-left.avi" emptyFS).summaryWritten = false :=
  (join_gated_on_artifacts false worldStagesOkNoWrite (freshEyeTable [0])
      "left" "session-left.avi" emptyFS rfl).1 (Or.inl rfl)

/-- C9: in the joiner, a summary is written exactly when the whole step
succeeds; in particular a failing extraction call (raw checkpoint cannot be
produced or read) raises the extraction error and writes neither the summary
nor the filtered checkpoint, and a failing filter call propagates an error
with no summary written. -/
theorem joiner_error_no_summary (keep : Bool) (w : World) (eye : IndexedTable)
    (label : String) (fs : FS) :
    ((estimate keep w eye label fs).summaryWritten = true ↔
      (estimate keep w eye label fs).outcome = Except.ok ()) ∧
    (¬ (fs.whiskraw = true ∧ keep = true) → (w.runExtract fs).1 ≠ 0 →
      (estimate keep w eye label fs).outcome =
          Except.error ("failed to extract from " ++ label) ∧
        (estimate keep w eye label fs).summaryWritten = false ∧
        (estimate keep w eye label fs).whiskcheckWritten = false) ∧
    ((∀ t, w.filterRaw t = none) →
      (estimate keep w eye label fs).summaryWritten = false ∧
        (estimate keep w eye label fs).outcome ≠ Except.ok ()) := by
  by_cases hk : (fs.whiskraw && keep) = true
  · have hkk : fs.whiskraw = true ∧ keep = true := by simpa using hk
    cases hr : w.readRaw fs with
    | none =>
        exact ⟨by simp [estimate, hk, hr], fun hnot => absurd hkk hnot,
          fun hf => by simp [estimate, hk, hr]⟩
    | some data =>
        cases hf : w.filterRaw data with
        | none =>
            exact ⟨by simp [estimate, estimateJoin, hk, hr, hf],
              fun hnot => absurd hkk hnot,
              fun h => by simp [estimate, estimateJoin, hk, hr, hf]⟩
        | some side =>
            refine ⟨by simp [estimate, estimateJoin, hk, hr, hf],
              fun hnot => absurd hkk hnot, fun h => ?_⟩
            exact absurd (h data) (by simp [hf])
  · have hk' : (fs.whiskraw && keep) = false := by
      revert hk; cases (fs.whiskraw && keep) <;> simp
    by_cases hrc : (w.runExtract fs).1 = 0
    · cases hr : w.readRaw (w.runExtract fs).2 with
      | none =>
          exact ⟨by simp [estimate, hk', hrc, hr],
            fun _ h2 => absurd hrc h2,
            fun hf => by simp [estimate, hk', hrc, hr]⟩
      | some data =>
          cases hf : w.filterRaw data with
          | none =>
              exact ⟨by simp [estimate, estimateJoin, hk', hrc, hr, hf],
                fun _ h2 => absurd hrc h2,
                fun h => by simp [estimate, estimateJoin, hk', hrc, hr, hf]⟩
          | some side =>
              refine ⟨by simp [estimate, estimateJoin, hk', hrc, hr, hf],
                fun _ h2 => absurd hrc h2, fun h => ?_⟩
              exact absurd (h data) (by simp [hf])
    · exact ⟨by simp [estimate, hk', hrc],
        fun _ _ => by simp [estimate, hk', hrc],
        fun hf => by simp [estimate, hk', hrc]⟩

/-- C9 witness: with no raw checkpoint on disk and an extraction call that
exits 1, the joiner raises the extraction error and writes nothing. -/
theorem joiner_error_no_summary_witness :
    (estimate true worldExtractFail (freshEyeTable [0]) "left" emptyFS).outcome =
      Except.error ("failed to extract from " ++ "left") ∧
    (estimate true worldExtractFail (freshEyeTable [0]) "left"
        emptyFS).summaryWritten = false ∧
    (estimate true worldExtractFail (freshEyeTable [0]) "left"
        emptyFS).whiskcheckWritten = false :=
  (joiner_error_no_summary true worldExtractFail (freshEyeTable [0]) "left"
      emptyFS).2.1 (by decide) (by decide)

/-- C2 counterexample: a channel whose filtered whisker table has frame ids
0 and 1 while its eye table has only frame id 0 still gets a summary whose
frame ids are 0 and 1: frame id 1 is present on only one side yet appears in
the written summary, so the join is not an inner join. -/
theorem summary_left_join_counterexample :
    (estimate true worldTwoRows (freshEyeTable [0]) "left"
        resumeFS).summaryWritten = true ∧
    (estimate true worldTwoRows (freshEyeTable [0]) "left"
        resumeFS).summaryIndex = some [0, 1] ∧
    1 ∉ (freshEyeTable [0]).index := by
  refine ⟨rfl, rfl, by decide⟩

/-- C2 as amended: the join is the pandas default left join keyed on the
filtered whisker table, so the summary table contains exactly the frame ids
of the filtered-whisk table, in order; eye-only frame ids are dropped but
whisk-only frame ids are kept. -/
theorem summary_join_is_left_join (keep : Bool) (w : World)
    (eye : IndexedTable) (label : String) (fs : FS) (data side : WhiskTable)
    (hk : fs.whiskraw = true) (hkeep : keep = true)
    (hread : w.readRaw fs = some data)
    (hfilt : w.filterRaw data = some side) :
    (pdJoin (setIndexFrameid side) eye).index = side.frameid ∧
    (estimate keep w eye label fs).summaryIndex = some side.frameid := by
  subst hkeep
  exact ⟨rfl, by simp [estimate, estimateJoin, hk, hread, hfilt, pdJoin,
    setIndexFrameid]⟩

/-- C2 witness: the left-join result for the two-row filtered table against
the one-row eye table carries frame ids 0 and 1. -/
theorem summary_join_is_left_join_witness :
    (pdJoin (setIndexFrameid dataTwoRows) (freshEyeTable [0])).index =
      dataTwoRows.frameid ∧
    (estimate true worldTwoRows (freshEyeTable [0]) "left"
        resumeFS).summaryIndex = some dataTwoRows.frameid :=
  summary_join_is_left_join true worldTwoRows (freshEyeTable [0]) "left"
    resumeFS dataTwoRows dataTwoRows rfl rfl rfl rfl

end Whisker
